import Mathlib

/-!
Shallow embedding of the impersonation-monitor plugin
(src/qq_operater_service.py) and verification of its stated properties.

Conventions of the embedding:
  * Python `None` / truthiness is made explicit: optional values are
    `Option`, and an "empty string is falsy" test is written `s = ""`.
  * The mutable plugin-instance fields (`imitate_task`, `imitate_target`,
    `imitate_cache`, `config`) become an explicit `PluginState` record
    threaded through the lifecycle and monitor functions.
  * The opaque asyncio task handle is modelled as `Option Nat`; the `Nat`
    is the identity of the spawned task (the value returned by
    `asyncio.create_task`), supplied by the caller of `start`.
  * External effects (remote API calls) are returned as an explicit trace
    (`List ApiCall`); the environment's responses for one poll cycle are
    gathered in `CycleEnv`.
  * Exceptions raised by collaborators are modelled as `none` / `Option`
    results, matching the `try/except` blocks that swallow them in the
    source.
-/

/-- A Python-like value, used to model raw API responses where the code
inspects their shape (`isinstance(ret, list)`, `isinstance(ret, dict)`,
`'data' in ret`, `.get(...)`). -/
inductive PyVal where
  | pynone : PyVal
  | pyint : Int → PyVal
  | pystr : String → PyVal
  | pylist : List PyVal → PyVal
  | pydict : List (String × PyVal) → PyVal

/-- `d.get(key)` on a Python dict (first binding wins; Python dicts have
unique keys so the order is irrelevant). Returns `none` when absent. -/
def dget : List (String × PyVal) → String → Option PyVal
  | [], _ => none
  | (k, v) :: rest, key => if k = key then some v else dget rest key

/-- Response normalization as performed by `handle_get_group_list`
(src/qq_operater_service.py lines 107-122): a list is used as-is; a dict
containing a `data` key yields `ret['data']`; anything else is left
unchanged (the handler falls back to printing the raw value). -/
def normalize_group_list (ret : PyVal) : PyVal :=
  match ret with
  | .pylist xs => .pylist xs
  | .pydict kvs =>
    match dget kvs "data" with
    | some v => v
    | none => .pydict kvs
  | other => other

/-- Python `d.get('status') == 'ok'`: true exactly when the key holds the
string `"ok"` (comparing a missing key or a non-string value to `'ok'`
yields `False`). -/
def isOkStatus : Option PyVal → Bool
  | some (.pystr s) => s = "ok"
  | _ => false

/-- Response normalization as performed by `_fetch_target_info`
(src/qq_operater_service.py lines 607-610), `_get_bot_id` (lines 713-715)
and `handle_get_group_member_info` (lines 158-164): a dict is unwrapped to
`ret['data']` only when additionally `ret.get('status') == 'ok'`;
otherwise the value is left unchanged. -/
def normalize_member_info (ret : PyVal) : PyVal :=
  match ret with
  | .pydict kvs =>
    if isOkStatus (dget kvs "status") then
      match dget kvs "data" with
      | some v => v
      | none => .pydict kvs
    else .pydict kvs
  | other => other

/-- The impersonation target: `plugin.imitate_target`
(a dict `{'group_id': ..., 'user_id': ...}`, lines 220-223). -/
structure Target where
  group_id : Int
  user_id : Int
deriving DecidableEq, Repr

/-- The fingerprint cache entry: `plugin.imitate_cache`
(a dict with keys `avatar_url`, `avatar_hash`, `nickname`, `card`,
written at lines 816-821). -/
structure Fingerprint where
  avatar_url : String
  avatar_hash : String
  nickname : String
  card : String
deriving DecidableEq, Repr

/-- The plugin configuration fields the imitation feature touches:
`plugin.config['imitate']` (a string `"<group_id>,<user_id>"`, `''` when
unset) and `plugin.config.get('imitate_interval', 10)` (absent key modelled
as `none`, the code always reads it with default `10`). -/
structure Config where
  imitate : String
  imitate_interval : Option Nat
deriving DecidableEq, Repr

/-- The mutable plugin-instance state used by the imitation feature. -/
structure PluginState where
  imitate_task : Option Nat
  imitate_target : Option Target
  imitate_cache : Option Fingerprint
  config : Config
deriving DecidableEq, Repr

/-- `plugin.config.get('imitate_interval', 10)`. -/
def interval (st : PluginState) : Nat :=
  st.config.imitate_interval.getD 10

/-- A remote API call issued through `client.api.call_action`. -/
inductive ApiCall where
  | get_group_member_info : Int → Int → Bool → ApiCall
  | get_login_info : ApiCall
  | set_qq_avatar : String → ApiCall
  | set_group_card : Int → Int → String → ApiCall
deriving DecidableEq, Repr

/-- Is this call one of the two identity-mutating operations
(`set_qq_avatar` / `set_group_card`)? -/
def isMutator : ApiCall → Bool
  | .set_qq_avatar _ => true
  | .set_group_card _ _ _ => true
  | _ => false

/-- Number of mutator invocations in a call trace. -/
def mutator_calls (cs : List ApiCall) : Nat :=
  (cs.filter isMutator).length

/-- `_stop_current_imitate` (lines 191-204): if a task handle is held,
cancel it and clear task and target; then, unconditionally, clear the
fingerprint cache and reset the persisted config string to `''`. -/
def stop_current_imitate (st : PluginState) : PluginState :=
  let st1 :=
    if st.imitate_task.isSome then
      { st with imitate_task := none, imitate_target := none }
    else st
  { st1 with imitate_cache := none,
             config := { st1.config with imitate := "" } }

/-- `_start_imitate_target` (lines 206-228): persist `"gid,uid"` into
`config['imitate']`, store the target, and spawn the monitor task
(`task_id` is the identity of the freshly created task). -/
def start_imitate_target (st : PluginState) (group_id user_id : Int)
    (task_id : Nat) : PluginState :=
  { st with
    config := { st.config with
                imitate := toString group_id ++ "," ++ toString user_id },
    imitate_target := some ⟨group_id, user_id⟩,
    imitate_task := some task_id }

/-- `_replace_imitate_target` (lines 230-247): stop the current monitor,
then start the new target. -/
def replace_imitate_target (st : PluginState) (group_id user_id : Int)
    (task_id : Nat) : PluginState :=
  start_imitate_target (stop_current_imitate st) group_id user_id task_id

/-- The `has_existing_target` / `existing_target_info` computation of
`handle_imitate_user` (lines 257-267): `config['imitate']` truthy wins,
else a running task together with a stored target. `none` means no
existing target. -/
def existing_target (st : PluginState) : Option String :=
  if st.config.imitate ≠ "" then
    some st.config.imitate
  else if st.imitate_task.isSome && st.imitate_target.isSome then
    match st.imitate_target with
    | some t => some (toString t.group_id ++ "," ++ toString t.user_id)
    | none => none
  else
    none

/-- Python `str.strip()` on a reply message: drop leading and trailing
whitespace characters. -/
def pyStrip (s : String) : String :=
  String.mk
    (((s.toList.dropWhile Char.isWhitespace).reverse.dropWhile
        Char.isWhitespace).reverse)

/-- The affirmative replies accepted by the confirmation waiter
(line 311). -/
def isAffirmative (s : String) : Bool :=
  s = "是" || s = "是的" || s = "Y" || s = "y" || s = "YES" || s = "yes"

/-- The negative replies accepted by the confirmation waiter (line 317). -/
def isNegative (s : String) : Bool :=
  s = "否" || s = "不是" || s = "N" || s = "n" || s = "NO" || s = "no"

/-- The user-visible replies produced by `handle_imitate_user` and its
confirmation session. -/
inductive Msg where
  | needMention : Msg
  | needGroup : Msg
  | conflictPrompt : String → Msg
  | startedMsg : Int → Nat → Msg
  | replacedMsg : Int → Nat → Msg
  | cancelledMsg : Msg
  | retryPrompt : Msg
  | timeoutMsg : Msg
deriving DecidableEq, Repr

/-- The confirmation session of `handle_imitate_user` (lines 300-331):
each incoming reply is stripped and classified; an affirmative reply runs
`_replace_imitate_target` and stops the session; a negative reply stops it
with a cancellation message; anything else re-prompts and keeps waiting.
An exhausted reply list models the 60-second session timeout
(`except TimeoutError`, line 328). -/
def confirm_session (st : PluginState) (group_id user_id : Int)
    (task_id : Nat) : List String → PluginState × List Msg
  | [] => (st, [Msg.timeoutMsg])
  | r :: rs =>
    let reply := pyStrip r
    if isAffirmative reply then
      (replace_imitate_target st group_id user_id task_id,
       [Msg.replacedMsg user_id (interval st)])
    else if isNegative reply then
      (st, [Msg.cancelledMsg])
    else
      let (st2, ms) := confirm_session st group_id user_id task_id rs
      (st2, Msg.retryPrompt :: ms)

/-- The member-info fields `_fetch_target_info` reads after normalization:
`member_info.get('nickname', '未知')` and `member_info.get('card')`.
`none` models an absent key (both values are strings when present). -/
structure MemberInfo where
  nickname : Option String
  card : Option String
deriving DecidableEq, Repr

/-- The deterministic avatar URL derived from the user id (line 617). -/
def avatar_url_of (user_id : Int) : String :=
  "https://thirdqq.qlogo.cn/g?b=sdk&s=640&nk=" ++ toString user_id

/-- `_fetch_target_info` (lines 588-622). `resp = none` models any
exception in the block (network failure, a non-dict payload on which
`.get` raises, ...): the function then returns the all-None tuple.
Otherwise `nickname` defaults to `"未知"` and `card_name` is
`member_info.get('card') or target_nickname` (Python truthiness: a missing
or empty card falls back to the nickname). -/
def fetch_target_info (user_id : Int) (resp : Option MemberInfo) :
    Option (String × String × String) :=
  match resp with
  | none => none
  | some mi =>
    let nickname := mi.nickname.getD "未知"
    let card_name :=
      match mi.card with
      | some c => if c = "" then nickname else c
      | none => nickname
    some (nickname, card_name, avatar_url_of user_id)

/-- `_check_need_update` (lines 652-672): when a cache exists AND the
current avatar hash is truthy (non-empty), return `false` exactly when all
three of nickname, card and avatar hash match the cache; in every other
situation return `true`. -/
def check_need_update (cache : Option Fingerprint)
    (target_nickname target_card_name current_avatar_hash : String) : Bool :=
  match cache with
  | some c =>
    if current_avatar_hash ≠ "" then
      !(c.nickname = target_nickname && c.card = target_card_name &&
        c.avatar_hash = current_avatar_hash)
    else true
  | none => true

/-- The change detector exactly as claimed by the specification
(§4.4): update needed iff no cached fingerprint exists or at least one of
the three fields differs from the cached value. Kept separate from
`check_need_update` (the code) so the two can be compared. -/
def check_need_update_claimed (cache : Option Fingerprint)
    (target_nickname target_card_name current_avatar_hash : String) : Bool :=
  match cache with
  | some c =>
    !(c.nickname = target_nickname && c.card = target_card_name &&
      c.avatar_hash = current_avatar_hash)
  | none => true

/-- The environment's responses during one poll cycle of the monitor:
`remote` is the (normalized) `get_group_member_info` payload (`none` =
the fetch raised), `avatar_hash` the result of `_download_avatar`
(`none` = non-200 status or transport error), `event_bot_id` the id
`_get_bot_id` reads off the triggering event, `login_bot_id` the id the
`get_login_info` fallback resolves to (`none` = call failed or no usable
field). `avatar_set_ok` / `card_set_ok` record whether the two mutation
calls succeeded; the code catches their exceptions internally
(lines 683-690, 737-746) so they influence nothing downstream. -/
structure CycleEnv where
  remote : Option MemberInfo
  avatar_hash : Option String
  event_bot_id : Option Int
  login_bot_id : Option Int
  avatar_set_ok : Bool
  card_set_ok : Bool
deriving DecidableEq, Repr

/-- `_get_bot_id` (lines 692-724): prefer the id attached to the event;
otherwise issue a `get_login_info` call (recorded in the trace even when
it fails) and use its resolved id. -/
def get_bot_id (env : CycleEnv) : Option Int × List ApiCall :=
  match env.event_bot_id with
  | some bid => (some bid, [])
  | none => (env.login_bot_id, [ApiCall.get_login_info])

/-- How one iteration of the monitor loop ended. -/
inductive CycleOutcome where
  | exited : CycleOutcome
  | skipped : CycleOutcome
  | updated : CycleOutcome
deriving DecidableEq, Repr

/-- One iteration of the `while True` loop of `_imitate_monitor`
(lines 763-825): exit when the target was cleared; fetch the profile and
skip the cycle when the card name is missing or falsy; download the
avatar and skip when the hash is unavailable; skip when
`_check_need_update` reports no change; otherwise attempt the avatar
mutation, resolve the bot id and (when resolved) attempt the card
mutation, then overwrite the fingerprint cache with the observed data.
Returns the new state, the API calls issued this iteration, and how the
iteration ended. -/
def monitor_cycle (st : PluginState) (env : CycleEnv) :
    PluginState × List ApiCall × CycleOutcome :=
  match st.imitate_target with
  | none => (st, [], .exited)
  | some tgt =>
    let fetchCall := ApiCall.get_group_member_info tgt.group_id tgt.user_id true
    match fetch_target_info tgt.user_id env.remote with
    | none => (st, [fetchCall], .skipped)
    | some (nickname, card_name, url) =>
      if card_name = "" then (st, [fetchCall], .skipped)
      else
        match env.avatar_hash with
        | none => (st, [fetchCall], .skipped)
        | some h =>
          if check_need_update st.imitate_cache nickname card_name h then
            let (botId, idCalls) := get_bot_id env
            let cardCalls :=
              match botId with
              | some bid => [ApiCall.set_group_card tgt.group_id bid card_name]
              | none => []
            let fresh : Fingerprint := ⟨url, h, nickname, card_name⟩
            ({ st with imitate_cache := some fresh },
             fetchCall :: ApiCall.set_qq_avatar url :: (idCalls ++ cardCalls),
             .updated)
          else
            (st, [fetchCall], .skipped)

/-- The monitor loop run over a finite schedule of cycle environments
(each entry is the world's behaviour for one iteration; the inter-cycle
sleep separates entries). The loop stops early when an iteration exits. -/
def monitor_run : PluginState → List CycleEnv → PluginState × List ApiCall
  | st, [] => (st, [])
  | st, env :: envs =>
    let (st1, calls, outcome) := monitor_cycle st env
    match outcome with
    | .exited => (st1, calls)
    | _ =>
      let (st2, rest) := monitor_run st1 envs
      (st2, calls ++ rest)

/-- The entry of `_imitate_monitor` (lines 756-762): when no API client
can be obtained the coroutine returns at once, performing no remote call
and touching no state; otherwise the HTTP session is created and the loop
runs. `client = none` models `get_client` returning `None`. -/
def imitate_monitor_entry (st : PluginState) (client : Option Unit)
    (envs : List CycleEnv) : PluginState × List ApiCall :=
  match client with
  | none => (st, [])
  | some _ => monitor_run st envs

/-- How the monitor coroutine terminated. -/
inductive MonitorExit where
  | normal : MonitorExit
  | cancelled : MonitorExit
  | fatal : MonitorExit
deriving DecidableEq, Repr

/-- The exception handlers wrapping the monitor loop (lines 827-834):
cooperative cancellation (`asyncio.CancelledError`) is swallowed with no
state mutation; any other exception clears `imitate_task` and
`imitate_target` (and nothing else). A normal return also mutates
nothing. -/
def monitor_on_exit (st : PluginState) (e : MonitorExit) : PluginState :=
  match e with
  | .normal => st
  | .cancelled => st
  | .fatal => { st with imitate_task := none, imitate_target := none }

/-- `handle_imitate_user` (lines 249-339). Inputs that the handler parses
out of the triggering event are supplied pre-extracted: `mention` is the
`At`-component user id (when one with `qq != "all"` exists), `cmdUid` is
`int(cmd_params[1])` when that parse succeeds, `groupId` is
`event.get_group_id()` (with `none` for a missing value; `0` is likewise
falsy). `replies` are the stripped-later reply messages fed to the
confirmation session and `task_id` the identity of the task a (re)start
would spawn. -/
def handle_imitate_user (st : PluginState) (mention cmdUid : Option Int)
    (groupId : Option Int) (replies : List String) (task_id : Nat) :
    PluginState × List Msg :=
  let newUid := match mention with
    | some u => some u
    | none => cmdUid
  match newUid with
  | none => (st, [Msg.needMention])
  | some uid =>
    match groupId with
    | none => (st, [Msg.needGroup])
    | some gid =>
      if gid = 0 then (st, [Msg.needGroup])
      else
        match existing_target st with
        | some info =>
          let (st2, ms) := confirm_session st gid uid task_id replies
          (st2, Msg.conflictPrompt info :: ms)
        | none =>
          (start_imitate_target st gid uid task_id,
           [Msg.startedMsg uid (interval st)])

/-! ## Theorems -/

/-- `mutator_calls` distributes over trace concatenation. -/
theorem mutator_calls_append (a b : List ApiCall) :
    mutator_calls (a ++ b) = mutator_calls a + mutator_calls b := by
  simp [mutator_calls, List.filter_append]

/-- A concrete plugin state whose fingerprint cache is populated, as left
behind by a monitor that has synchronized at least once. -/
def st_fatal_example : PluginState :=
  { imitate_task := some 1,
    imitate_target := some ⟨100, 200⟩,
    imitate_cache := some ⟨"u", "h1", "Alice", "Alice"⟩,
    config := ⟨"100,200", some 10⟩ }

/-- C2 counterexample: after a fatal (non-cancellation) exception escapes
the monitor loop, the task handle and the target are cleared but the
fingerprint cache is NOT cleared, contradicting the claim that all three
shared references are cleared. -/
theorem C2_counterexample :
    (monitor_on_exit st_fatal_example MonitorExit.fatal).imitate_task = none ∧
    (monitor_on_exit st_fatal_example MonitorExit.fatal).imitate_target = none ∧
    (monitor_on_exit st_fatal_example MonitorExit.fatal).imitate_cache ≠ none := by
  decide

/-- C2 (amended): when any exception other than cooperative cancellation
escapes the monitor loop, the monitor task ends and the target and task
references are cleared, while the fingerprint cache and the persisted
config are left unchanged. -/
theorem C2_fatal_cleanup (st : PluginState) :
    (monitor_on_exit st MonitorExit.fatal).imitate_task = none ∧
    (monitor_on_exit st MonitorExit.fatal).imitate_target = none ∧
    (monitor_on_exit st MonitorExit.fatal).imitate_cache = st.imitate_cache ∧
    (monitor_on_exit st MonitorExit.fatal).config = st.config := by
  simp [monitor_on_exit]

/-- A concrete plugin state with no active monitor task but with a
leftover fingerprint cache and persisted config string (the state a fatal
monitor error leaves behind). -/
def st_stop_example : PluginState :=
  { imitate_task := none,
    imitate_target := none,
    imitate_cache := some ⟨"u", "h1", "Alice", "Alice"⟩,
    config := ⟨"100,200", some 10⟩ }

/-- C5 counterexample: calling stop with no active monitor (task handle
absent, target `None`) does modify the plugin state — the fingerprint
cache and the persisted config string are rewritten — contradicting the
claim that no field is modified. -/
theorem C5_counterexample :
    st_stop_example.imitate_task = none ∧
    st_stop_example.imitate_target = none ∧
    stop_current_imitate st_stop_example ≠ st_stop_example := by
  decide

/-- C5 (amended): calling stop with no active monitor does not raise and
leaves the task handle and the target untouched (the target remains
`None` whenever it was `None`), but it unconditionally clears the
fingerprint cache and resets the persisted config string to the empty
string. -/
theorem C5_stop_without_monitor (st : PluginState)
    (h : st.imitate_task = none) :
    stop_current_imitate st =
      { st with imitate_cache := none,
                config := { st.config with imitate := "" } } := by
  simp [stop_current_imitate, h]

/-- C5 witness: the amended statement evaluated at the concrete
no-monitor state. -/
theorem C5_stop_without_monitor_witness :
    stop_current_imitate st_stop_example =
      { st_stop_example with
        imitate_cache := none,
        config := { st_stop_example.config with imitate := "" } } :=
  C5_stop_without_monitor st_stop_example rfl

/-- C7 counterexample: at cached fingerprint `⟨"u", "", "a", "b"⟩` and
freshly observed `("a", "b", "")` nothing differs from the cache, so the
claimed characterization answers `false`, yet the code returns `true`
(its extra truthiness guard on the current avatar hash fires). -/
theorem C7_counterexample :
    check_need_update (some ⟨"u", "", "a", "b"⟩) "a" "b" "" = true ∧
    check_need_update_claimed (some ⟨"u", "", "a", "b"⟩) "a" "b" "" = false := by
  decide

/-- C7 (amended): the change detector is a pure function of the cached
fingerprint and the three observed values; it returns `true` exactly when
no cached fingerprint exists, or the current avatar hash is the empty
(falsy) string, or at least one of nickname, card, avatar hash differs
from the cached value. -/
theorem C7_change_detector (cache : Option Fingerprint) (n c h : String) :
    check_need_update cache n c h = true ↔
      (cache = none ∨ h = "" ∨
        ∃ fp, cache = some fp ∧
          (fp.nickname ≠ n ∨ fp.card ≠ c ∨ fp.avatar_hash ≠ h)) := by
  cases cache with
  | none => simp [check_need_update]
  | some fp =>
    by_cases hh : h = ""
    · simp [check_need_update, hh]
    · simp [check_need_update, hh]
      tauto

/-- C10: when no API client can be obtained at monitor start, the monitor
returns immediately: no remote call is performed and no plugin state is
touched, so a stored impersonation target keeps being reported as active
even though no polling loop is running. -/
theorem C10_no_client (st : PluginState) (envs : List CycleEnv) :
    imitate_monitor_entry st none envs = (st, []) ∧
    (imitate_monitor_entry st none envs).1.imitate_target =
      st.imitate_target ∧
    (imitate_monitor_entry st none envs).1.imitate_task = st.imitate_task ∧
    (imitate_monitor_entry st none envs).1.config = st.config := by
  simp [imitate_monitor_entry]

/-- C9 counterexample: a mapping containing a `data` key but no
`status: ok` is NOT unwrapped by the member-info normalization — it is
returned unchanged rather than yielding the value under `data` as the
claim states for every response-normalization site. -/
theorem C9_counterexample :
    normalize_member_info (PyVal.pydict [("data", PyVal.pylist [])]) =
      PyVal.pydict [("data", PyVal.pylist [])] ∧
    PyVal.pydict [("data", PyVal.pylist [])] ≠ PyVal.pylist [] :=
  ⟨rfl, fun h => PyVal.noConfusion h⟩

/-- C9 (amended): sequences are always returned as-is and neither
normalizer raises; the group-list normalization unwraps any mapping
containing a `data` key (and returns any other mapping unchanged), while
the member-info normalization unwraps a mapping only when it additionally
carries `status = "ok"` (and returns every other mapping unchanged); the
wrapped form with `status = "ok"` and the bare list normalize to the same
list under both. -/
theorem C9_normalization :
    (∀ xs, normalize_group_list (.pylist xs) = .pylist xs) ∧
    (∀ kvs v, dget kvs "data" = some v →
      normalize_group_list (.pydict kvs) = v) ∧
    (∀ kvs, dget kvs "data" = none →
      normalize_group_list (.pydict kvs) = .pydict kvs) ∧
    (∀ xs, normalize_member_info (.pylist xs) = .pylist xs) ∧
    (∀ kvs v, dget kvs "status" = some (.pystr "ok") →
      dget kvs "data" = some v →
      normalize_member_info (.pydict kvs) = v) ∧
    (∀ kvs, dget kvs "status" ≠ some (.pystr "ok") →
      normalize_member_info (.pydict kvs) = .pydict kvs) ∧
    (∀ xs, normalize_group_list
        (.pydict [("status", .pystr "ok"), ("data", .pylist xs)]) =
      normalize_group_list (.pylist xs)) ∧
    (∀ xs, normalize_member_info
        (.pydict [("status", .pystr "ok"), ("data", .pylist xs)]) =
      normalize_member_info (.pylist xs)) := by
  refine ⟨fun xs => rfl, ?_, ?_, fun xs => rfl, ?_, ?_, fun xs => rfl,
    fun xs => rfl⟩
  · intro kvs v hv
    simp [normalize_group_list, hv]
  · intro kvs hv
    simp [normalize_group_list, hv]
  · intro kvs v hs hv
    simp [normalize_member_info, hs, hv, isOkStatus]
  · intro kvs hs
    have hok : isOkStatus (dget kvs "status") = false := by
      rcases h1 : dget kvs "status" with _ | sv
      · rfl
      · cases sv with
        | pystr s =>
          have hne : s ≠ "ok" := by
            intro hx
            exact hs (by rw [h1, hx])
          simp [isOkStatus, hne]
        | pynone => rfl
        | pyint n => rfl
        | pylist xs => rfl
        | pydict kvs2 => rfl
    simp [normalize_member_info, hok]

/-- C9 witness: the amended contract evaluated at concrete responses:
a `data`-bearing dict unwraps under the group-list normalizer, the
`status: ok` wrapped form unwraps under the member-info normalizer, and a
dict without `status: ok` passes through the member-info normalizer
unchanged. -/
theorem C9_normalization_witness :
    normalize_group_list
        (PyVal.pydict [("data", PyVal.pylist [PyVal.pyint 1])]) =
      PyVal.pylist [PyVal.pyint 1] ∧
    normalize_member_info
        (PyVal.pydict [("status", PyVal.pystr "ok"),
                       ("data", PyVal.pylist [PyVal.pyint 1])]) =
      PyVal.pylist [PyVal.pyint 1] ∧
    normalize_member_info (PyVal.pydict [("status", PyVal.pystr "failed")]) =
      PyVal.pydict [("status", PyVal.pystr "failed")] :=
  ⟨C9_normalization.2.1 _ _ rfl,
   C9_normalization.2.2.2.2.1 _ _ rfl rfl,
   C9_normalization.2.2.2.2.2.1 _ (by simp [dget])⟩

/-- C8: in any poll cycle whose profile fetch returned the all-None tuple
or whose avatar download returned no hash, the cycle performs zero
mutation calls, never calls `get_login_info`, leaves the plugin state
(including the fingerprint cache) untouched, and the loop sleeps and
continues. -/
theorem C8_partial_data_skip (st : PluginState) (tgt : Target)
    (env : CycleEnv)
    (htgt : st.imitate_target = some tgt)
    (hskip : fetch_target_info tgt.user_id env.remote = none ∨
             env.avatar_hash = none) :
    (monitor_cycle st env).1 = st ∧
    (monitor_cycle st env).2.1 =
      [ApiCall.get_group_member_info tgt.group_id tgt.user_id true] ∧
    mutator_calls (monitor_cycle st env).2.1 = 0 ∧
    ApiCall.get_login_info ∉ (monitor_cycle st env).2.1 ∧
    (monitor_cycle st env).2.2 = CycleOutcome.skipped := by
  have hcyc : monitor_cycle st env =
      (st, [ApiCall.get_group_member_info tgt.group_id tgt.user_id true],
       CycleOutcome.skipped) := by
    rcases hskip with hf | hh
    · simp [monitor_cycle, htgt, hf]
    · rcases hfetch : fetch_target_info tgt.user_id env.remote with _ | ⟨n, c, url⟩
      · simp [monitor_cycle, htgt, hfetch]
      · by_cases hc : c = ""
        · simp [monitor_cycle, htgt, hfetch, hc]
        · simp [monitor_cycle, htgt, hfetch, hc, hh]
  rw [hcyc]
  refine ⟨rfl, rfl, by simp [mutator_calls, isMutator], by simp, rfl⟩

/-- C8 witness: the partial-data skip evaluated at a concrete state and a
concrete environment whose avatar download failed. -/
theorem C8_partial_data_skip_witness :
    (monitor_cycle
        ⟨some 1, some ⟨100, 200⟩, none, ⟨"100,200", some 10⟩⟩
        ⟨some ⟨some "Alice", some "Alice"⟩, none, some 7, none, true, true⟩).1 =
      ⟨some 1, some ⟨100, 200⟩, none, ⟨"100,200", some 10⟩⟩ ∧
    mutator_calls
      (monitor_cycle
        ⟨some 1, some ⟨100, 200⟩, none, ⟨"100,200", some 10⟩⟩
        ⟨some ⟨some "Alice", some "Alice"⟩, none, some 7, none, true, true⟩).2.1
      = 0 :=
  ⟨(C8_partial_data_skip _ ⟨100, 200⟩ _ rfl (Or.inr rfl)).1,
   (C8_partial_data_skip _ ⟨100, 200⟩ _ rfl (Or.inr rfl)).2.2.1⟩

/-- C6: in every poll cycle where a change is detected, after the avatar
mutation and (whenever the bot id resolves) the card mutation have been
attempted, the fingerprint cache is overwritten with the freshly observed
`(avatar_url, avatar_hash, nickname, card)` — unconditionally, for every
value of the mutation success flags, i.e. also when a mutation call
itself raised and failed. -/
theorem C6_cache_overwritten_unconditionally (st : PluginState)
    (tgt : Target) (env : CycleEnv) (n c url h : String)
    (htgt : st.imitate_target = some tgt)
    (hfetch : fetch_target_info tgt.user_id env.remote = some (n, c, url))
    (hc : c ≠ "")
    (hhash : env.avatar_hash = some h)
    (hupd : check_need_update st.imitate_cache n c h = true) :
    (monitor_cycle st env).1.imitate_cache = some ⟨url, h, n, c⟩ ∧
    ApiCall.set_qq_avatar url ∈ (monitor_cycle st env).2.1 ∧
    (∀ bid, (get_bot_id env).1 = some bid →
      ApiCall.set_group_card tgt.group_id bid c ∈ (monitor_cycle st env).2.1) ∧
    (monitor_cycle st env).2.2 = CycleOutcome.updated := by
  have hcyc : monitor_cycle st env =
      ({ st with imitate_cache := some ⟨url, h, n, c⟩ },
       ApiCall.get_group_member_info tgt.group_id tgt.user_id true ::
         ApiCall.set_qq_avatar url ::
           ((get_bot_id env).2 ++
             (match (get_bot_id env).1 with
               | some bid => [ApiCall.set_group_card tgt.group_id bid c]
               | none => [])),
       CycleOutcome.updated) := by
    rcases hgb : get_bot_id env with ⟨botId, idCalls⟩
    simp [monitor_cycle, htgt, hfetch, hc, hhash, hupd, hgb]
  refine ⟨by rw [hcyc], by rw [hcyc]; simp, ?_, by rw [hcyc]⟩
  intro bid hbid
  rw [hcyc, hbid]
  simp

/-- C6 witness: a first-synchronization cycle (no cache yet) at concrete
inputs, with both mutation calls failing, still writes the fresh
fingerprint. -/
theorem C6_cache_overwritten_unconditionally_witness :
    (monitor_cycle
        ⟨some 1, some ⟨100, 200⟩, none, ⟨"100,200", some 10⟩⟩
        ⟨some ⟨some "Alice", some "Alice"⟩, some "h1", some 7, none,
         false, false⟩).1.imitate_cache =
      some ⟨avatar_url_of 200, "h1", "Alice", "Alice"⟩ :=
  (C6_cache_overwritten_unconditionally
    ⟨some 1, some ⟨100, 200⟩, none, ⟨"100,200", some 10⟩⟩ ⟨100, 200⟩
    ⟨some ⟨some "Alice", some "Alice"⟩, some "h1", some 7, none,
     false, false⟩
    "Alice" "Alice" (avatar_url_of 200) "h1" rfl rfl (by decide) rfl
    rfl).1

/-- C1: once the fingerprint cache matches the (unchanged) remote
observation — i.e. after the first successful synchronization — N further
poll cycles against the same remote data invoke the mutator operations
(`set_qq_avatar` / `set_group_card`) exactly 0 times. -/
theorem C1_idempotent_monitor (st : PluginState) (tgt : Target)
    (fp : Fingerprint) (env : CycleEnv) (n c url h : String) (N : Nat)
    (htgt : st.imitate_target = some tgt)
    (hcache : st.imitate_cache = some fp)
    (hfetch : fetch_target_info tgt.user_id env.remote = some (n, c, url))
    (hhash : env.avatar_hash = some h)
    (hn : fp.nickname = n) (hcard : fp.card = c) (hh : fp.avatar_hash = h)
    (hne : h ≠ "") :
    mutator_calls (monitor_run st (List.replicate N env)).2 = 0 := by
  have hnu : check_need_update st.imitate_cache n c h = false := by
    simp [hcache, check_need_update, hne, hn, hcard, hh]
  have hcyc : monitor_cycle st env =
      (st, [ApiCall.get_group_member_info tgt.group_id tgt.user_id true],
       CycleOutcome.skipped) := by
    by_cases hcc : c = ""
    · simp [monitor_cycle, htgt, hfetch, hcc]
    · simp [monitor_cycle, htgt, hfetch, hcc, hhash, hnu]
  induction N with
  | zero => simp [monitor_run, mutator_calls]
  | succ k ih =>
    rw [List.replicate_succ]
    simp only [monitor_run, hcyc]
    rw [mutator_calls_append, ih]
    simp [mutator_calls, isMutator]

/-- C1 witness: five cycles against an unchanged remote target whose data
matches the cache produce zero mutator invocations. -/
theorem C1_idempotent_monitor_witness :
    mutator_calls
      (monitor_run
        ⟨some 1, some ⟨100, 200⟩,
         some ⟨avatar_url_of 200, "h1", "Alice", "Alice"⟩,
         ⟨"100,200", some 10⟩⟩
        (List.replicate 5
          ⟨some ⟨some "Alice", some "Alice"⟩, some "h1", some 7, none,
           true, true⟩)).2 = 0 :=
  C1_idempotent_monitor
    ⟨some 1, some ⟨100, 200⟩,
     some ⟨avatar_url_of 200, "h1", "Alice", "Alice"⟩,
     ⟨"100,200", some 10⟩⟩
    ⟨100, 200⟩
    ⟨avatar_url_of 200, "h1", "Alice", "Alice"⟩
    ⟨some ⟨some "Alice", some "Alice"⟩, some "h1", some 7, none,
     true, true⟩
    "Alice" "Alice" (avatar_url_of 200) "h1" 5
    rfl rfl rfl rfl rfl rfl rfl (by decide)

/-- A confirmation session fed only non-affirmative replies never changes
the plugin state. -/
theorem confirm_session_no_affirm (st : PluginState) (gid uid : Int)
    (tid : Nat) (replies : List String)
    (hrep : ∀ r ∈ replies, isAffirmative (pyStrip r) = false) :
    (confirm_session st gid uid tid replies).1 = st := by
  induction replies with
  | nil => rfl
  | cons r rs ih =>
    have hr : isAffirmative (pyStrip r) = false := hrep r (List.mem_cons_self r rs)
    have hrs : ∀ x ∈ rs, isAffirmative (pyStrip x) = false :=
      fun x hx => hrep x (List.mem_cons_of_mem r hx)
    by_cases hn : isNegative (pyStrip r)
    · simp [confirm_session, hr, hn]
    · simp [confirm_session, hr, hn, ih hrs]

/-- With a running task and a stored target, `handle_imitate_user` always
finds an existing target. -/
theorem existing_target_isSome_of_active (st : PluginState) (t0 : Nat)
    (tgt0 : Target) (htask : st.imitate_task = some t0)
    (htgt : st.imitate_target = some tgt0) :
    ∃ info, existing_target st = some info := by
  unfold existing_target
  by_cases hc : st.config.imitate = ""
  · refine ⟨toString tgt0.group_id ++ "," ++ toString tgt0.user_id, ?_⟩
    simp [hc, htask, htgt]
  · refine ⟨st.config.imitate, ?_⟩
    simp [hc]

/-- C3: while a monitor is active, issuing the imitate command with a new
target leaves the whole plugin state — active target, task handle,
fingerprint cache, persisted config — unchanged as long as no affirmative
confirmation reply arrives: every run of the command whose replies are all
non-affirmative (negative replies, invalid replies, or a timeout with no
reply at all) returns the original state intact. -/
theorem C3_replace_requires_confirmation (st : PluginState)
    (mention cmdUid : Option Int) (groupId : Option Int)
    (replies : List String) (tid : Nat) (t0 : Nat) (tgt0 : Target)
    (htask : st.imitate_task = some t0)
    (htgt : st.imitate_target = some tgt0)
    (hrep : ∀ r ∈ replies, isAffirmative (pyStrip r) = false) :
    (handle_imitate_user st mention cmdUid groupId replies tid).1 = st := by
  obtain ⟨info, hinfo⟩ := existing_target_isSome_of_active st t0 tgt0 htask htgt
  have hsession : ∀ gid uid, (confirm_session st gid uid tid replies).1 = st :=
    fun gid uid => confirm_session_no_affirm st gid uid tid replies hrep
  unfold handle_imitate_user
  rcases mention with _ | u
  · rcases cmdUid with _ | u2
    · rfl
    · rcases groupId with _ | g
      · rfl
      · by_cases hg : g = 0
        · simp [hg]
        · simp [hg, hinfo, hsession]
  · rcases groupId with _ | g
    · rfl
    · by_cases hg : g = 0
      · simp [hg]
      · simp [hg, hinfo, hsession]

/-- C3 witness: with an active monitor on target (100, 200), the command
naming a new target 300 followed by an invalid reply and then a negative
reply leaves the state exactly as it was. -/
theorem C3_replace_requires_confirmation_witness :
    (handle_imitate_user
        ⟨some 1, some ⟨100, 200⟩,
         some ⟨"u", "h1", "Alice", "Alice"⟩, ⟨"100,200", some 10⟩⟩
        (some 300) none (some 100) ["嗯", "否"] 2).1 =
      ⟨some 1, some ⟨100, 200⟩,
       some ⟨"u", "h1", "Alice", "Alice"⟩, ⟨"100,200", some 10⟩⟩ :=
  C3_replace_requires_confirmation
    ⟨some 1, some ⟨100, 200⟩,
     some ⟨"u", "h1", "Alice", "Alice"⟩, ⟨"100,200", some 10⟩⟩
    (some 300) none (some 100) ["嗯", "否"] 2 1 ⟨100, 200⟩
    rfl rfl (by decide)

/-- The persisted `"gid,uid"` string is never empty. -/
theorem pair_string_ne_empty (a b : Int) :
    toString a ++ "," ++ toString b ≠ "" := by
  intro h
  have h1 : (toString a ++ "," ++ toString b).length = ("" : String).length := by
    rw [h]
  rw [String.length_append, String.length_append] at h1
  have h2 : ("," : String).length = 1 := rfl
  have h3 : ("" : String).length = 0 := rfl
  omega

/-- C4: starting impersonation twice without an intervening stop. From a
fresh state, the first invocation starts the monitor (task handle
`tid1`). The second invocation, with a different target and no
confirmation reply, leaves the state unchanged — still exactly the one
monitor task `tid1` — and reports the conflict back to the invoker (the
existing-target prompt, then the session-timeout reply); the second
target is applied only via the replace path (stop-then-start) once an
affirmative reply arrives. -/
theorem C4_second_start_reports_conflict (st0 : PluginState)
    (gid uid1 uid2 : Int) (tid1 tid2 : Nat)
    (hcfg : st0.config.imitate = "")
    (htask : st0.imitate_task = none)
    (hgid : gid ≠ 0) :
    (handle_imitate_user st0 (some uid1) none (some gid) [] tid1).1 =
      start_imitate_target st0 gid uid1 tid1 ∧
    (start_imitate_target st0 gid uid1 tid1).imitate_task = some tid1 ∧
    (handle_imitate_user (start_imitate_target st0 gid uid1 tid1)
        (some uid2) none (some gid) [] tid2).1 =
      start_imitate_target st0 gid uid1 tid1 ∧
    (handle_imitate_user (start_imitate_target st0 gid uid1 tid1)
        (some uid2) none (some gid) [] tid2).2 =
      [Msg.conflictPrompt (toString gid ++ "," ++ toString uid1),
       Msg.timeoutMsg] ∧
    (handle_imitate_user (start_imitate_target st0 gid uid1 tid1)
        (some uid2) none (some gid) ["是"] tid2).1 =
      replace_imitate_target (start_imitate_target st0 gid uid1 tid1)
        gid uid2 tid2 := by
  have hex0 : existing_target st0 = none := by
    simp [existing_target, hcfg, htask]
  have hst1 : (start_imitate_target st0 gid uid1 tid1).config.imitate =
      toString gid ++ "," ++ toString uid1 := rfl
  have hex1 : existing_target (start_imitate_target st0 gid uid1 tid1) =
      some (toString gid ++ "," ++ toString uid1) := by
    simp [existing_target, hst1, pair_string_ne_empty]
  refine ⟨?_, rfl, ?_, ?_, ?_⟩
  · simp [handle_imitate_user, hgid, hex0]
  · simp [handle_imitate_user, hgid, hex1, confirm_session]
  · simp [handle_imitate_user, hgid, hex1, confirm_session]
  · simp [handle_imitate_user, hgid, hex1, confirm_session, pyStrip,
      isAffirmative]

/-- C4 witness: the conflict behaviour at the concrete fresh state
(no config target, no task) with group 100, targets 200 then 300. -/
theorem C4_second_start_reports_conflict_witness :
    (handle_imitate_user
        (start_imitate_target ⟨none, none, none, ⟨"", some 10⟩⟩ 100 200 1)
        (some 300) none (some 100) [] 2).1 =
      start_imitate_target ⟨none, none, none, ⟨"", some 10⟩⟩ 100 200 1 ∧
    (handle_imitate_user
        (start_imitate_target ⟨none, none, none, ⟨"", some 10⟩⟩ 100 200 1)
        (some 300) none (some 100) [] 2).2 =
      [Msg.conflictPrompt "100,200", Msg.timeoutMsg] :=
  ⟨(C4_second_start_reports_conflict ⟨none, none, none, ⟨"", some 10⟩⟩
      100 200 300 1 2 rfl rfl (by decide)).2.2.1,
   by
    rw [(C4_second_start_reports_conflict ⟨none, none, none, ⟨"", some 10⟩⟩
      100 200 300 1 2 rfl rfl (by decide)).2.2.2.1]
    rfl⟩
